import Mathlib

/-!
Verification development for the MMC Fortnight Estimation Dashboard.

The core under study is `build_data_from_excel` in `app.py`: it merges four
tables (RFQ, Submitted, Orders, To-Do), keyed by job number, into one
consolidated jobs table with derived `status` and `risk_level` columns, plus
a KPI map.  We embed that pipeline shallowly:

* A spreadsheet cell is a `Val`: the Python value `None`, a float `NaN`
  (the pandas missing-value marker), a rational number, or a string.  A
  numeric-coercible cell (as accepted by `pd.to_numeric`) is modelled as
  `Val.num`.
* A row carries a job number (job ids are modelled as naturals; rows with a
  missing job id are dropped by `groupby` and never reach any output, so
  they are not modelled), a description, a project and a raw value cell.
* pandas `groupby(...).agg(first)` takes the first non-null value of the
  group (NaN when the whole group is null); `agg(sum)` sums the numeric
  values with `min_count=0`, so an all-null group sums to `0`.
* Python truthiness (`or` chains, `if q90 and ...`, `if kpi[...]`) is
  modelled by `Val.truthy` / `pyTruthyNum`: `None`, `0` and `""` are falsy,
  `NaN` and every other value are truthy.
* `Series.quantile(0.9)` drops nulls, sorts, and linearly interpolates at
  position `0.9 * (n - 1)`.
-/

namespace MMC

set_option allowUnsafeReducibility true

attribute [semireducible] Rat.mul Rat.add Rat.sub Rat.inv Rat.ofScientific

/-- A spreadsheet / dataframe cell as seen by the Python code. -/
inductive Val where
  | null : Val
  | nan : Val
  | num : ℚ → Val
  | str : String → Val
deriving DecidableEq

/-- pandas nullness (`pd.isna`): `None` and `NaN` are missing. -/
def Val.isNull : Val → Bool
  | .null => true
  | .nan => true
  | _ => false

/-- Python truthiness of a cell.  `None`, the number `0` and the empty
string are falsy; `NaN` is truthy (`bool(float("nan"))` is `True`). -/
def Val.truthy : Val → Bool
  | .null => false
  | .nan => true
  | .num q => if q = 0 then false else true
  | .str s => if s = "" then false else true

/-- `pd.to_numeric(..., errors="coerce")` applied to one cell: numeric
cells keep their value, everything else becomes missing. -/
def toNumeric : Val → Option ℚ
  | .num q => some q
  | _ => none

/-- One row of a source sheet: job id, description, project, and the raw
value cell (`quote_value` for Submitted, `order_value` for Orders; a sheet
without the expected value column is modelled as that column being null on
every row, which the code also does via `submitted["quote_value"] = pd.NA`). -/
structure Row where
  job_no : ℕ
  job_description : Val
  project : Val
  value : Val
deriving DecidableEq

/-- The four raw input tables of `build_data_from_excel`. -/
structure Input where
  rfq : List Row
  submitted : List Row
  orders : List Row
  todo : List Row
deriving DecidableEq

/-- The rows of a table belonging to one job (one `groupby` group). -/
def rowsFor (t : List Row) (j : ℕ) : List Row :=
  t.filter (fun r => r.job_no == j)

/-- Whether a job id appears in a table (`Series.isin` on the aggregated
ids, equivalently membership of the id in the raw table). -/
def inTable (t : List Row) (j : ℕ) : Bool :=
  t.any (fun r => r.job_no == j)

/-- pandas `groupby.agg(first)`: first non-null value of the group, `NaN`
if the group is entirely null. -/
def firstNonNull (vs : List Val) : Val :=
  match vs.find? (fun v => !v.isNull) with
  | some v => v
  | none => .nan

/-- The aggregated `job_description` / `project` of a job in one source
table (a field of `aggregate_by_job`'s output row for that job). -/
def aggFirst (t : List Row) (j : ℕ) (f : Row → Val) : Val :=
  firstNonNull ((rowsFor t j).map f)

/-- Sum of the numeric values of a list of cells, non-numeric entries
excluded (pandas `sum` with `skipna=True`, `min_count=0`). -/
def sumNumeric (vs : List Val) : ℚ :=
  (vs.filterMap toNumeric).sum

/-- The aggregated value column of a job (`groupby.agg(sum)` of the
coerced value column). -/
def aggSum (t : List Row) (j : ℕ) : ℚ :=
  sumNumeric ((rowsFor t j).map (fun r => r.value))

/-- `pick_field(row, table, field)` from `app.py`: the aggregated table has
one row per job id, so a non-empty match returns that job's aggregated
field value; an empty match returns Python `None`. -/
def pick_field (t : List Row) (j : ℕ) (f : Row → Val) : Val :=
  if inTable t j then aggFirst t j f else .null

/-- Python `a or b` on cells: `a` when `a` is truthy, else `b`. -/
def pyOr (a b : Val) : Val :=
  if a.truthy then a else b

/-- The `or`-chain used for `jobs["job_description"]` and
`jobs["project"]`: probe Submitted, Orders, RFQ, To-Do in that order. -/
def resolveField (inp : Input) (j : ℕ) (f : Row → Val) : Val :=
  pyOr (pick_field inp.submitted j f)
    (pyOr (pick_field inp.orders j f)
      (pyOr (pick_field inp.rfq j f) (pick_field inp.todo j f)))

/-- The raw job ids appearing in a table, in row order. -/
def jobIds (t : List Row) : List ℕ :=
  t.map (fun r => r.job_no)

/-- `sorted(set(rfq) | set(sub) | set(ord) | set(todo))`: the union of the
job ids of the four tables, deduplicated and sorted ascending. -/
def allJobNos (inp : Input) : List ℕ :=
  List.insertionSort (· ≤ ·)
    (jobIds inp.rfq ++ jobIds inp.submitted ++ jobIds inp.orders ++ jobIds inp.todo).dedup

/-- The merged `quote_value` column: a left join of the Submitted
aggregate onto the job list, so missing (`NaN`) exactly when the job never
appears in Submitted. -/
def quoteValueOf (inp : Input) (j : ℕ) : Option ℚ :=
  if inTable inp.submitted j then some (aggSum inp.submitted j) else none

/-- The merged `order_value` column, likewise from the Orders aggregate. -/
def orderValueOf (inp : Input) (j : ℕ) : Option ℚ :=
  if inTable inp.orders j then some (aggSum inp.orders j) else none

/-- `derive_status` from `app.py`, verbatim: first matching flag wins. -/
def derive_status (has_rfq has_quote has_order has_todo : Bool) : String :=
  if has_order then "Order Received"
  else if has_quote then "Submitted Only"
  else if has_todo then "Quote To-Do"
  else if has_rfq then "RFQ Only"
  else "Unclassified"

/-- `Series.quantile(0.9)` with the default linear interpolation: sort the
(already non-null) values, let `h = 0.9 * (n - 1)`, and interpolate between
the values at positions `floor h` and `floor h + 1`.  Empty input has no
quantile. -/
def quantile90 (l : List ℚ) : Option ℚ :=
  let s := List.insertionSort (· ≤ ·) l
  if s.length = 0 then none
  else
    let m := s.length - 1
    let i := 9 * m / 10
    let g : ℚ := (9 * m : ℚ) / 10 - (i : ℚ)
    let a := s.getD i 0
    let b := s.getD (i + 1) a
    some (a + g * (b - a))

/-- `jobs["quote_value"].quantile(0.9)` guarded by
`if not jobs["quote_value"].dropna().empty else None`. -/
def q90 (inp : Input) : Option ℚ :=
  let vs := (allJobNos inp).filterMap (quoteValueOf inp)
  if vs.isEmpty then none else quantile90 vs

/-- Python truthiness of an optional number (`if q90 and ...`,
`if kpi["total_quote_value"]`): `None` and `0` are falsy. -/
def pyTruthyNum : Option ℚ → Bool
  | none => false
  | some t => if t = 0 then false else true

/-- `risk_level` from `app.py`, closing over the dataset-level `q90`:
missing or non-positive quote, or an order, gives Low; otherwise High
exactly when `q90` is truthy (non-null and nonzero) and the quote reaches
it, else Medium. -/
def risk_level (t : Option ℚ) (q : Option ℚ) (ho : Bool) : String :=
  match q with
  | none => "Low"
  | some qv =>
    if qv ≤ 0 then "Low"
    else if ho then "Low"
    else
      match t with
      | none => "Medium"
      | some t0 => if t0 ≠ 0 ∧ t0 ≤ qv then "High" else "Medium"

/-- One row of the consolidated `jobs` table. -/
structure JobRecord where
  job_no : ℕ
  quote_value : Option ℚ
  order_value : Option ℚ
  job_description : Val
  project : Val
  has_rfq : Bool
  has_quote : Bool
  has_order : Bool
  has_todo : Bool
  status : String
  risk_level : String
deriving DecidableEq

/-- The consolidated record of one job, given the dataset threshold `t`. -/
def mkRecord (inp : Input) (t : Option ℚ) (j : ℕ) : JobRecord where
  job_no := j
  quote_value := quoteValueOf inp j
  order_value := orderValueOf inp j
  job_description := resolveField inp j (fun r => r.job_description)
  project := resolveField inp j (fun r => r.project)
  has_rfq := inTable inp.rfq j
  has_quote := inTable inp.submitted j
  has_order := inTable inp.orders j
  has_todo := inTable inp.todo j
  status :=
    derive_status (inTable inp.rfq j) (inTable inp.submitted j)
      (inTable inp.orders j) (inTable inp.todo j)
  risk_level := risk_level t (quoteValueOf inp j) (inTable inp.orders j)

/-- The consolidated `jobs` dataframe of `build_data_from_excel`. -/
def jobsTable (inp : Input) : List JobRecord :=
  (allJobNos inp).map (mkRecord inp (q90 inp))

/-- `Series.nunique`: number of distinct job ids of a raw table. -/
def nunique (t : List Row) : ℕ :=
  (jobIds t).dedup.length

/-- `submitted["quote_value"].sum(skipna=True)` over the whole raw table
(not deduplicated by job); the all-null sum is `0`, never `NaN`. -/
def totalValue (t : List Row) : ℚ :=
  sumNumeric (t.map (fun r => r.value))

/-- The KPI map of `build_data_from_excel`. -/
structure KPI where
  rfq_count : ℕ
  submitted_count : ℕ
  order_count : ℕ
  todo_count : ℕ
  total_quote_value : ℚ
  total_order_value : ℚ
  hit_rate_count : Option ℚ
  hit_rate_value : Option ℚ
deriving DecidableEq

/-- The KPI block of `build_data_from_excel`: distinct-job counts, raw
value totals, and the two ratios guarded by Python truthiness of their
denominators. -/
def kpiOf (inp : Input) : KPI where
  rfq_count := nunique inp.rfq
  submitted_count := nunique inp.submitted
  order_count := nunique inp.orders
  todo_count := nunique inp.todo
  total_quote_value := totalValue inp.submitted
  total_order_value := totalValue inp.orders
  hit_rate_count :=
    if nunique inp.submitted = 0 then none
    else some ((nunique inp.orders : ℚ) / (nunique inp.submitted : ℚ))
  hit_rate_value :=
    if totalValue inp.submitted = 0 then none
    else some (totalValue inp.orders / totalValue inp.submitted)

/-- The pure core of the pipeline: the four tables unchanged, the
consolidated jobs table, and the KPI map. -/
def build_data_from_excel (inp : Input) : Input × List JobRecord × KPI :=
  (inp, jobsTable inp, kpiOf inp)

/-- The possible situations `handle_upload` distinguishes: no upload yet,
a failure of `contents.split(",")`, of `base64.b64decode`, or of
`build_data_from_excel` (the exception text, raised by the environment, is
the constructor's argument), or a successfully read workbook. -/
inductive Upload where
  | noFile : Upload
  | splitError : String → Upload
  | decodeError : String → Upload
  | readError : String → Upload
  | file : String → Input → Upload

/-- The seven outputs of the `handle_upload` callback: the six `dcc.Store`
payloads (the JSON serialisations are modelled by the values themselves)
and the status message. -/
structure UploadResult where
  store_rfq : Option (List Row)
  store_submitted : Option (List Row)
  store_orders : Option (List Row)
  store_todo : Option (List Row)
  store_jobs : Option (List JobRecord)
  store_kpi : Option KPI
  upload_status : String

/-- `handle_upload` from `app.py`: each failure branch returns `None` for
all six stores together with its message; the success branch stores the
tables, jobs and KPIs and reports the load summary. -/
def handle_upload : Upload → UploadResult
  | .noFile =>
      ⟨none, none, none, none, none, none, "No file uploaded yet."⟩
  | .splitError e =>
      ⟨none, none, none, none, none, none,
        "Upload error: could not parse contents (" ++ e ++ ")"⟩
  | .decodeError e =>
      ⟨none, none, none, none, none, none,
        "Upload error: could not decode file (" ++ e ++ ")"⟩
  | .readError e =>
      ⟨none, none, none, none, none, none,
        "Error reading Excel file: " ++ e⟩
  | .file fn inp =>
      let k := kpiOf inp
      ⟨some inp.rfq, some inp.submitted, some inp.orders, some inp.todo,
        some (jobsTable inp), some k,
        "Loaded file: " ++ fn ++ " • RFQs: " ++ toString k.rfq_count ++
          " • Quotes: " ++ toString k.submitted_count ++
          " • Orders: " ++ toString k.order_count⟩

/-- All six data stores cleared to the "no data" state. -/
def clearedStores (res : UploadResult) : Prop :=
  res.store_rfq = none ∧ res.store_submitted = none ∧
  res.store_orders = none ∧ res.store_todo = none ∧
  res.store_jobs = none ∧ res.store_kpi = none

/-- Modelled from the spec, for comparison with `q90` only: "the 90th
percentile of `quote_value` across all jobs with a non-null, positive
quote value". -/
def q90_spec_positiveOnly (inp : Input) : Option ℚ :=
  quantile90 (((allJobNos inp).filterMap (quoteValueOf inp)).filter (fun q => 0 < q))

/-- A placeholder record used only as the default of `List.getD`. -/
def emptyJob : JobRecord :=
  ⟨0, none, none, .null, .null, false, false, false, false, "", ""⟩

/-! ### Concrete inputs used in counterexamples and witnesses -/

/-- Ten submitted jobs quoted at `0` and one at `5`: the 90th percentile of
the eleven quote sums is exactly `0`. -/
def c2inp : Input := ⟨[],
  [⟨1, .null, .null, .num 0⟩, ⟨2, .null, .null, .num 0⟩, ⟨3, .null, .null, .num 0⟩,
   ⟨4, .null, .null, .num 0⟩, ⟨5, .null, .null, .num 0⟩, ⟨6, .null, .null, .num 0⟩,
   ⟨7, .null, .null, .num 0⟩, ⟨8, .null, .null, .num 0⟩, ⟨9, .null, .null, .num 0⟩,
   ⟨10, .null, .null, .num 0⟩, ⟨11, .null, .null, .num 5⟩], [], []⟩

/-- The job-11 row of the consolidated table for `c2inp`. -/
def c2rec : JobRecord := (jobsTable c2inp).getD 10 emptyJob

/-- Two submitted jobs, one with a negative quote sum. -/
def c3inp : Input :=
  ⟨[], [⟨1, .null, .null, .num (-100)⟩, ⟨2, .null, .null, .num 10⟩], [], []⟩

/-- Job 1 has the numeric description `0` in Submitted and the description
`"X"` in Orders. -/
def c4inp : Input :=
  ⟨[], [⟨1, .num 0, .null, .null⟩], [⟨1, .str "X", .null, .null⟩], []⟩

/-- The job-1 row of the consolidated table for `c4inp`. -/
def c4rec : JobRecord := (jobsTable c4inp).getD 0 emptyJob

/-- A run whose only job is quoted at `10`. -/
def c6inp1 : Input := ⟨[], [⟨1, .null, .null, .num 10⟩], [], []⟩

/-- A second run where job 1 is again quoted at `10` but a larger job
raises the `q90` threshold. -/
def c6inp2 : Input :=
  ⟨[], [⟨1, .null, .null, .num 10⟩, ⟨2, .null, .null, .num 100⟩], [], []⟩

/-- Job 1 as consolidated from `c6inp1`. -/
def c6rec1 : JobRecord := (jobsTable c6inp1).getD 0 emptyJob

/-- Job 1 as consolidated from `c6inp2`. -/
def c6rec2 : JobRecord := (jobsTable c6inp2).getD 0 emptyJob

/-- Witness input: a single RFQ-only job. -/
def w1inp : Input := ⟨[⟨1, .str "d", .str "p", .null⟩], [], [], []⟩

/-- The single record of `w1inp`. -/
def w1rec : JobRecord := (jobsTable w1inp).getD 0 emptyJob

/-- Witness input: one submitted job quoted at `10`, plus an RFQ-only job
with no quote. -/
def w2inp : Input :=
  ⟨[⟨2, .null, .null, .null⟩], [⟨1, .null, .null, .num 10⟩], [], []⟩

/-- The job-1 record of `w2inp` (quoted, no order). -/
def w2rec1 : JobRecord := (jobsTable w2inp).getD 0 emptyJob

/-- The job-2 record of `w2inp` (no quote). -/
def w2rec2 : JobRecord := (jobsTable w2inp).getD 1 emptyJob

/-- Witness input: a single job with a negative quote sum. -/
def w3inp : Input := ⟨[], [⟨1, .null, .null, .num (-5)⟩], [], []⟩

/-- The single record of `w3inp`. -/
def w3rec : JobRecord := (jobsTable w3inp).getD 0 emptyJob

/-- Witness input: job 1 described in both Submitted and RFQ. -/
def w4inp : Input :=
  ⟨[⟨1, .str "rfq-d", .str "rfq-p", .null⟩], [⟨1, .str "d", .str "p", .num 7⟩], [], []⟩

/-- The single record of `w4inp`. -/
def w4rec : JobRecord := (jobsTable w4inp).getD 0 emptyJob

/-- Witness input: two submitted jobs with identical flags and quote. -/
def w6inp : Input :=
  ⟨[], [⟨1, .null, .null, .num 10⟩, ⟨2, .null, .null, .num 10⟩], [], []⟩

/-- The job-1 record of `w6inp`. -/
def w6rec1 : JobRecord := (jobsTable w6inp).getD 0 emptyJob

/-- The job-2 record of `w6inp`. -/
def w6rec2 : JobRecord := (jobsTable w6inp).getD 1 emptyJob

/-- The spec's own example: RFQ has `J1`; Submitted has `J1` twice with
quote values `1000` and `500`; Orders has no `J1`. -/
def w7inp : Input :=
  ⟨[⟨1, .null, .null, .null⟩],
   [⟨1, .null, .null, .num 1000⟩, ⟨1, .null, .null, .num 500⟩], [], []⟩

/-- The job-1 record of `w7inp`. -/
def w7rec : JobRecord := (jobsTable w7inp).getD 0 emptyJob

/-- Witness input: no submitted rows at all. -/
def w8ainp : Input := ⟨[⟨1, .null, .null, .null⟩], [], [], []⟩

/-- Witness input: one quote of `4` and one order of `2`. -/
def w8binp : Input :=
  ⟨[], [⟨1, .null, .null, .num 4⟩], [⟨1, .null, .null, .num 2⟩], []⟩

/-- Witness input: job 1 appears in Submitted only with a non-numeric
quote cell. -/
def w10inp : Input := ⟨[], [⟨1, .null, .null, .str "tbc"⟩], [], []⟩

/-- The single record of `w10inp`. -/
def w10rec : JobRecord := (jobsTable w10inp).getD 0 emptyJob

/-! ### Helper lemmas -/

lemma mem_jobsTable {inp : Input} {r : JobRecord} (h : r ∈ jobsTable inp) :
    ∃ j ∈ allJobNos inp, r = mkRecord inp (q90 inp) j := by
  rcases List.mem_map.mp h with ⟨j, hj, he⟩
  exact ⟨j, hj, he.symm⟩

lemma derive_status_count (a b c d : Bool) :
    (["Order Received", "Submitted Only", "Quote To-Do", "RFQ Only",
      "Unclassified"].count (derive_status a b c d)) = 1 := by
  cases a <;> cases b <;> cases c <;> cases d <;> decide

lemma pyOr_chain (a b c d : Val) :
    pyOr a (pyOr b (pyOr c d)) = ([a, b, c, d].find? Val.truthy).getD d := by
  by_cases ha : a.truthy <;> by_cases hb : b.truthy <;> by_cases hc : c.truthy <;>
    by_cases hd : d.truthy <;>
    simp [pyOr, ha, hb, hc, hd, List.find?]

lemma map_job_no_jobsTable (inp : Input) :
    (jobsTable inp).map (fun r => r.job_no) = allJobNos inp := by
  unfold jobsTable
  rw [List.map_map]
  exact List.map_id _

lemma allJobNos_nodup (inp : Input) : (allJobNos inp).Nodup := by
  unfold allJobNos
  exact ((List.perm_insertionSort _ _).nodup_iff).mpr (List.nodup_dedup _)

lemma sorted_lt_of_le_nodup :
    ∀ l : List ℕ, l.Sorted (· ≤ ·) → l.Nodup → l.Sorted (· < ·) := by
  intro l
  induction l with
  | nil => intro _ _; simp
  | cons a t ih =>
    intro hs hn
    rw [List.sorted_cons] at hs ⊢
    rcases hs with ⟨ha, ht⟩
    rcases List.nodup_cons.mp hn with ⟨hna, hnt⟩
    refine ⟨fun b hb => lt_of_le_of_ne (ha b hb) ?_, ih ht hnt⟩
    intro e
    exact hna (by rw [e]; exact hb)

lemma mem_allJobNos (inp : Input) (j : ℕ) :
    j ∈ allJobNos inp ↔
      j ∈ jobIds inp.rfq ∨ j ∈ jobIds inp.submitted ∨
      j ∈ jobIds inp.orders ∨ j ∈ jobIds inp.todo := by
  unfold allJobNos
  rw [(List.perm_insertionSort _ _).mem_iff, List.mem_dedup]
  simp [List.mem_append, or_assoc]

lemma quantile90_nil : quantile90 [] = none := rfl

lemma quantile90_ne_none {l : List ℚ} (h : l ≠ []) : quantile90 l ≠ none := by
  have hlen : (List.insertionSort (· ≤ ·) l).length = l.length :=
    (List.perm_insertionSort _ _).length_eq
  have h0 : ¬ (List.insertionSort (· ≤ ·) l).length = 0 := by
    rw [hlen]
    simpa [List.length_eq_zero] using h
  simp [quantile90, h0, h]

/-! ### Claim theorems -/

/-- C1: every consolidated job's `status` is derived from the four flags
by first-match priority (`has_order`, then `has_quote`, then `has_todo`,
then `has_rfq`, else Unclassified), and it is exactly one of the five
labels. -/
theorem c1_status_first_match (inp : Input) (r : JobRecord)
    (h : r ∈ jobsTable inp) :
    r.status =
      (if r.has_order then "Order Received"
       else if r.has_quote then "Submitted Only"
       else if r.has_todo then "Quote To-Do"
       else if r.has_rfq then "RFQ Only"
       else "Unclassified")
    ∧ (["Order Received", "Submitted Only", "Quote To-Do", "RFQ Only",
        "Unclassified"].count r.status) = 1 := by
  obtain ⟨j, hj, rfl⟩ := mem_jobsTable h
  exact ⟨rfl, derive_status_count _ _ _ _⟩

/-- C1 witness: the rule evaluated on a concrete RFQ-only job. -/
theorem c1_status_first_match_witness :
    w1rec.status =
      (if w1rec.has_order then "Order Received"
       else if w1rec.has_quote then "Submitted Only"
       else if w1rec.has_todo then "Quote To-Do"
       else if w1rec.has_rfq then "RFQ Only"
       else "Unclassified")
    ∧ (["Order Received", "Submitted Only", "Quote To-Do", "RFQ Only",
        "Unclassified"].count w1rec.status) = 1 :=
  c1_status_first_match w1inp w1rec (by decide)

/-- C5: the `job_no` column of the consolidated table is exactly the union
of the job ids appearing in the four inputs, without duplicates, sorted
strictly ascending. -/
theorem c5_union_sorted_unique (inp : Input) :
    (∀ j : ℕ, j ∈ (jobsTable inp).map (fun r => r.job_no) ↔
       j ∈ jobIds inp.rfq ∨ j ∈ jobIds inp.submitted ∨
       j ∈ jobIds inp.orders ∨ j ∈ jobIds inp.todo)
    ∧ ((jobsTable inp).map (fun r => r.job_no)).Nodup
    ∧ ((jobsTable inp).map (fun r => r.job_no)).Sorted (· < ·) := by
  rw [map_job_no_jobsTable]
  refine ⟨fun j => mem_allJobNos inp j, allJobNos_nodup inp, ?_⟩
  exact sorted_lt_of_le_nodup _ (List.sorted_insertionSort _ _) (allJobNos_nodup inp)

/-- C9: each of the three failure branches of `handle_upload` (contents
unparsable, payload undecodable, workbook unreadable) clears all six data
stores to `None` and reports its single descriptive message. -/
theorem c9_upload_failure_clears (e : String) :
    (clearedStores (handle_upload (Upload.splitError e)) ∧
      (handle_upload (Upload.splitError e)).upload_status =
        "Upload error: could not parse contents (" ++ e ++ ")")
    ∧ (clearedStores (handle_upload (Upload.decodeError e)) ∧
      (handle_upload (Upload.decodeError e)).upload_status =
        "Upload error: could not decode file (" ++ e ++ ")")
    ∧ (clearedStores (handle_upload (Upload.readError e)) ∧
      (handle_upload (Upload.readError e)).upload_status =
        "Error reading Excel file: " ++ e) := by
  refine ⟨⟨?_, rfl⟩, ⟨?_, rfl⟩, ⟨?_, rfl⟩⟩ <;>
    exact ⟨rfl, rfl, rfl, rfl, rfl, rfl⟩

/-- C2 counterexample: in `c2inp` the threshold `q90` is exactly `0`; job
11 has quote `5 ≥ 0` and no order, so the claim's rule demands High, but
the code's `if q90 and ...` treats the threshold `0` as falsy and rates
the job Medium. -/
theorem c2_high_at_zero_q90_cex :
    c2rec.quote_value = some 5 ∧ c2rec.has_order = false ∧
    q90 c2inp = some 0 ∧ (0 : ℚ) ≤ 5 ∧
    c2rec.risk_level = "Medium" ∧ "Medium" ≠ "High" := by
  refine ⟨by decide, by decide, by decide, by norm_num, by decide, by decide⟩

/-- C2 amended: `risk_level` is Low whenever the quote is missing, `≤ 0`,
or an order exists, regardless of `q90`; otherwise it is High exactly when
`q90` is defined, nonzero, and not above the quote, else Medium (so a
threshold of exactly `0` yields Medium, not High). -/
theorem c2_risk_rule_amended (inp : Input) (r : JobRecord)
    (h : r ∈ jobsTable inp) :
    (r.quote_value = none → r.risk_level = "Low")
    ∧ (∀ q : ℚ, r.quote_value = some q → q ≤ 0 → r.risk_level = "Low")
    ∧ (r.has_order = true → r.risk_level = "Low")
    ∧ (∀ q t0 : ℚ, r.quote_value = some q → 0 < q → r.has_order = false →
        q90 inp = some t0 →
        r.risk_level = if t0 ≠ 0 ∧ t0 ≤ q then "High" else "Medium") := by
  obtain ⟨j, hj, rfl⟩ := mem_jobsTable h
  refine ⟨?_, ?_, ?_, ?_⟩
  · intro hq
    have hq' : quoteValueOf inp j = none := hq
    show risk_level (q90 inp) (quoteValueOf inp j) (inTable inp.orders j) = "Low"
    simp [risk_level, hq']
  · intro q hq hle
    have hq' : quoteValueOf inp j = some q := hq
    show risk_level (q90 inp) (quoteValueOf inp j) (inTable inp.orders j) = "Low"
    simp [risk_level, hq', hle]
  · intro ho
    have ho' : inTable inp.orders j = true := ho
    show risk_level (q90 inp) (quoteValueOf inp j) (inTable inp.orders j) = "Low"
    rcases hq : quoteValueOf inp j with _ | q
    · simp [risk_level]
    · by_cases hle : q ≤ 0 <;> simp [risk_level, hq, ho', hle]
  · intro q t0 hq h0 ho ht
    have hq' : quoteValueOf inp j = some q := hq
    have ho' : inTable inp.orders j = false := ho
    have hnle : ¬ q ≤ 0 := not_le.mpr h0
    show risk_level (q90 inp) (quoteValueOf inp j) (inTable inp.orders j) = _
    simp [risk_level, hq', ho', hnle, ht]

/-- C2 witness: in `w2inp`, job 1 (quote `10`, threshold `10`) is rated
High and job 2 (no quote) is rated Low, by the amended rule. -/
theorem c2_risk_rule_amended_witness :
    w2rec1.risk_level = "High" ∧ w2rec2.risk_level = "Low" := by
  constructor
  · have h :=
      (c2_risk_rule_amended w2inp w2rec1 (by decide)).2.2.2 10 10
        (by decide) (by norm_num) (by decide) (by decide)
    simpa using h
  · exact (c2_risk_rule_amended w2inp w2rec2 (by decide)).1 (by decide)

/-- C3 counterexample: in `c3inp` the quote sums are `-100` and `10`; the
code's `q90` is the interpolated percentile `-1` of both values, not the
percentile `10` of the positive values only. -/
theorem c3_q90_positive_only_cex :
    q90 c3inp = some (-1) ∧ q90_spec_positiveOnly c3inp = some 10 ∧
    q90 c3inp ≠ q90_spec_positiveOnly c3inp := by
  refine ⟨by decide, by decide, by decide⟩

/-- C3 amended: `q90` is the 90th percentile of `quote_value` across all
jobs with a non-null quote value (non-positive sums included); it is
undefined exactly when the Submitted table is empty; and whenever no job
has a positive quote value, every job is rated Low. -/
theorem c3_q90_amended (inp : Input) :
    q90 inp = quantile90 ((allJobNos inp).filterMap (quoteValueOf inp))
    ∧ (q90 inp = none ↔ inp.submitted = [])
    ∧ ((∀ q ∈ (allJobNos inp).filterMap (quoteValueOf inp), q ≤ 0) →
        ∀ r ∈ jobsTable inp, r.risk_level = "Low") := by
  refine ⟨?_, ?_, ?_⟩
  · rcases hvs : (allJobNos inp).filterMap (quoteValueOf inp) with _ | ⟨x, xs⟩
    · simp [q90, hvs, quantile90_nil]
    · simp [q90, hvs]
  · constructor
    · intro hq
      by_contra hne
      rcases hsub : inp.submitted with _ | ⟨r0, rest⟩
      · exact hne hsub
      have hjmem : r0.job_no ∈ jobIds inp.submitted := by
        simp [jobIds, hsub]
      have hj : r0.job_no ∈ allJobNos inp :=
        (mem_allJobNos inp r0.job_no).mpr (Or.inr (Or.inl hjmem))
      have hin : inTable inp.submitted r0.job_no = true := by
        simp [inTable, hsub]
      have hval : quoteValueOf inp r0.job_no =
          some (aggSum inp.submitted r0.job_no) := by
        simp [quoteValueOf, hin]
      have hmem : aggSum inp.submitted r0.job_no ∈
          (allJobNos inp).filterMap (quoteValueOf inp) :=
        List.mem_filterMap.mpr ⟨r0.job_no, hj, hval⟩
      have hvs : (allJobNos inp).filterMap (quoteValueOf inp) ≠ [] :=
        List.ne_nil_of_mem hmem
      rw [q90] at hq
      simp only [List.isEmpty_eq_true, hvs, if_false] at hq
      exact quantile90_ne_none hvs hq
    · intro hs
      have hvs : (allJobNos inp).filterMap (quoteValueOf inp) = [] := by
        apply List.filterMap_eq_nil_iff.mpr
        intro j hj
        simp [quoteValueOf, inTable, hs]
      simp [q90, hvs]
  · intro hall r hr
    obtain ⟨j, hj, rfl⟩ := mem_jobsTable hr
    show risk_level (q90 inp) (quoteValueOf inp j) (inTable inp.orders j) = "Low"
    rcases hq : quoteValueOf inp j with _ | q
    · simp [risk_level]
    · have hmem : q ∈ (allJobNos inp).filterMap (quoteValueOf inp) :=
        List.mem_filterMap.mpr ⟨j, hj, hq⟩
      simp [risk_level, hall q hmem]

/-- C3 witness: in `w3inp` the only quote sum is `-5`, so every job is
rated Low. -/
theorem c3_q90_amended_witness : w3rec.risk_level = "Low" :=
  (c3_q90_amended w3inp).2.2 (by decide) w3rec (by decide)

/-- C4 counterexample: in `c4inp` the first-priority source (Submitted)
holds the non-null, non-empty description `0` for job 1, yet the output
description is `"X"` taken from Orders: the chain skips falsy values, not
just null/empty ones. -/
theorem c4_first_nonnull_cex :
    inTable c4inp.submitted 1 = true
    ∧ aggFirst c4inp.submitted 1 (fun r => r.job_description) = Val.num 0
    ∧ (Val.num 0).isNull = false
    ∧ c4rec.job_description = Val.str "X"
    ∧ Val.str "X" ≠ Val.num 0 := by
  refine ⟨by decide, by decide, by decide, by decide, by decide⟩

/-- C4 amended: `job_description` and `project` are resolved by probing
the aggregated source tables in priority order Submitted, Orders, RFQ,
To-Do, taking the first Python-truthy value (null, the empty string and
the number zero are skipped; a NaN aggregate is truthy and stops the
probe); when no probe is truthy the field is the To-Do probe's value. -/
theorem c4_field_resolution_amended (inp : Input) (r : JobRecord)
    (h : r ∈ jobsTable inp) :
    r.job_description =
      (([pick_field inp.submitted r.job_no (fun row => row.job_description),
         pick_field inp.orders r.job_no (fun row => row.job_description),
         pick_field inp.rfq r.job_no (fun row => row.job_description),
         pick_field inp.todo r.job_no (fun row => row.job_description)].find?
          Val.truthy).getD
        (pick_field inp.todo r.job_no (fun row => row.job_description)))
    ∧ r.project =
      (([pick_field inp.submitted r.job_no (fun row => row.project),
         pick_field inp.orders r.job_no (fun row => row.project),
         pick_field inp.rfq r.job_no (fun row => row.project),
         pick_field inp.todo r.job_no (fun row => row.project)].find?
          Val.truthy).getD
        (pick_field inp.todo r.job_no (fun row => row.project))) := by
  obtain ⟨j, hj, rfl⟩ := mem_jobsTable h
  exact ⟨pyOr_chain _ _ _ _, pyOr_chain _ _ _ _⟩

/-- C4 witness: the ordered-fallback characterisation evaluated on
`w4inp`. -/
theorem c4_field_resolution_amended_witness :
    w4rec.job_description =
      (([pick_field w4inp.submitted w4rec.job_no (fun row => row.job_description),
         pick_field w4inp.orders w4rec.job_no (fun row => row.job_description),
         pick_field w4inp.rfq w4rec.job_no (fun row => row.job_description),
         pick_field w4inp.todo w4rec.job_no (fun row => row.job_description)].find?
          Val.truthy).getD
        (pick_field w4inp.todo w4rec.job_no (fun row => row.job_description)))
    ∧ w4rec.project =
      (([pick_field w4inp.submitted w4rec.job_no (fun row => row.project),
         pick_field w4inp.orders w4rec.job_no (fun row => row.project),
         pick_field w4inp.rfq w4rec.job_no (fun row => row.project),
         pick_field w4inp.todo w4rec.job_no (fun row => row.project)].find?
          Val.truthy).getD
        (pick_field w4inp.todo w4rec.job_no (fun row => row.project))) :=
  c4_field_resolution_amended w4inp w4rec (by decide)

/-- C6 counterexample: job 1 of `c6inp1` and job 1 of `c6inp2` agree on
all four flags and on `quote_value`, yet one run rates it High and the
other Medium — `risk_level` is not a function of the flags and
`quote_value` across runs. -/
theorem c6_cross_run_cex :
    c6rec1.has_rfq = c6rec2.has_rfq ∧ c6rec1.has_quote = c6rec2.has_quote
    ∧ c6rec1.has_order = c6rec2.has_order ∧ c6rec1.has_todo = c6rec2.has_todo
    ∧ c6rec1.quote_value = c6rec2.quote_value
    ∧ c6rec1.risk_level = "High" ∧ c6rec2.risk_level = "Medium"
    ∧ c6rec1.risk_level ≠ c6rec2.risk_level := by
  refine ⟨by decide, by decide, by decide, by decide, by decide, by decide,
    by decide, by decide⟩

/-- C6 amended: `status` is a total function of the four flags alone, even
across runs; `risk_level` additionally depends on the run-level threshold
`q90`, so two jobs of the same run agreeing on the flags and `quote_value`
get the same `status` and the same `risk_level`. -/
theorem c6_determinism_amended (inp1 inp2 : Input) (r1 r2 : JobRecord)
    (h1 : r1 ∈ jobsTable inp1) (h2 : r2 ∈ jobsTable inp2)
    (hrfq : r1.has_rfq = r2.has_rfq) (hqf : r1.has_quote = r2.has_quote)
    (hof : r1.has_order = r2.has_order) (htf : r1.has_todo = r2.has_todo) :
    r1.status = r2.status
    ∧ (inp1 = inp2 → r1.quote_value = r2.quote_value →
        r1.risk_level = r2.risk_level) := by
  obtain ⟨j1, hj1, rfl⟩ := mem_jobsTable h1
  obtain ⟨j2, hj2, rfl⟩ := mem_jobsTable h2
  constructor
  · have e1 : inTable inp1.rfq j1 = inTable inp2.rfq j2 := hrfq
    have e2 : inTable inp1.submitted j1 = inTable inp2.submitted j2 := hqf
    have e3 : inTable inp1.orders j1 = inTable inp2.orders j2 := hof
    have e4 : inTable inp1.todo j1 = inTable inp2.todo j2 := htf
    show derive_status (inTable inp1.rfq j1) (inTable inp1.submitted j1)
        (inTable inp1.orders j1) (inTable inp1.todo j1) =
      derive_status (inTable inp2.rfq j2) (inTable inp2.submitted j2)
        (inTable inp2.orders j2) (inTable inp2.todo j2)
    rw [e1, e2, e3, e4]
  · intro he hqv
    subst he
    have eq1 : quoteValueOf inp1 j1 = quoteValueOf inp1 j2 := hqv
    have eq2 : inTable inp1.orders j1 = inTable inp1.orders j2 := hof
    show risk_level (q90 inp1) (quoteValueOf inp1 j1) (inTable inp1.orders j1) =
      risk_level (q90 inp1) (quoteValueOf inp1 j2) (inTable inp1.orders j2)
    rw [eq1, eq2]

/-- C6 witness: the two jobs of `w6inp` agree on flags and quote and
receive the same status and risk level. -/
theorem c6_determinism_amended_witness :
    w6rec1.status = w6rec2.status ∧ w6rec1.risk_level = w6rec2.risk_level := by
  have h := c6_determinism_amended w6inp w6inp w6rec1 w6rec2 (by decide)
    (by decide) (by decide) (by decide) (by decide) (by decide)
  exact ⟨h.1, h.2 rfl (by decide)⟩

/-- C7: a consolidated job's `quote_value` is the sum of the numeric
submitted-quote cells of its rows (non-numeric entries excluded), and it
is null exactly when the job never appears in Submitted. -/
theorem c7_quote_value_sum (inp : Input) (r : JobRecord)
    (h : r ∈ jobsTable inp) :
    (inTable inp.submitted r.job_no = true →
      r.quote_value =
        some (sumNumeric ((rowsFor inp.submitted r.job_no).map (fun row => row.value))))
    ∧ (r.quote_value = none ↔ inTable inp.submitted r.job_no = false) := by
  obtain ⟨j, hj, rfl⟩ := mem_jobsTable h
  have hjn : (mkRecord inp (q90 inp) j).job_no = j := rfl
  rw [hjn]
  constructor
  · intro hin
    show quoteValueOf inp j = _
    simp [quoteValueOf, hin, aggSum]
  · show quoteValueOf inp j = none ↔ inTable inp.submitted j = false
    rcases hin : inTable inp.submitted j <;> simp [quoteValueOf, hin]

/-- C7 witness: the spec's example — `J1` in RFQ and twice in Submitted
with quotes `1000` and `500`, absent from Orders — gets `quote_value =
1500`, `has_order = false`, `status = "Submitted Only"`. -/
theorem c7_quote_value_sum_witness :
    w7rec.quote_value = some 1500 ∧ w7rec.has_order = false ∧
    w7rec.status = "Submitted Only" := by
  have h := (c7_quote_value_sum w7inp w7rec (by decide)).1 (by decide)
  exact ⟨by rw [h]; decide, by decide, by decide⟩

/-- C8: `hit_rate_count` is `order_count / submitted_count`, null (not an
error, not zero) when `submitted_count` is 0; `hit_rate_value` is
`total_order_value / total_quote_value`, null when the denominator is 0
(the denominator is a skipna sum and is never null). -/
theorem c8_hit_rates (inp : Input) :
    ((kpiOf inp).submitted_count = 0 → (kpiOf inp).hit_rate_count = none)
    ∧ ((kpiOf inp).submitted_count ≠ 0 →
        (kpiOf inp).hit_rate_count =
          some (((kpiOf inp).order_count : ℚ) / ((kpiOf inp).submitted_count : ℚ)))
    ∧ ((kpiOf inp).total_quote_value = 0 → (kpiOf inp).hit_rate_value = none)
    ∧ ((kpiOf inp).total_quote_value ≠ 0 →
        (kpiOf inp).hit_rate_value =
          some ((kpiOf inp).total_order_value / (kpiOf inp).total_quote_value)) := by
  refine ⟨fun h => ?_, fun h => ?_, fun h => ?_, fun h => ?_⟩ <;>
    simp only [kpiOf] at h ⊢ <;> simp [h]

/-- C8 witness: with no submitted rows both ratios are null; with one
quote of `4` and one order of `2` both ratios are defined quotients. -/
theorem c8_hit_rates_witness :
    (kpiOf w8ainp).hit_rate_count = none
    ∧ (kpiOf w8ainp).hit_rate_value = none
    ∧ (kpiOf w8binp).hit_rate_count =
        some (((kpiOf w8binp).order_count : ℚ) / ((kpiOf w8binp).submitted_count : ℚ))
    ∧ (kpiOf w8binp).hit_rate_value =
        some ((kpiOf w8binp).total_order_value / (kpiOf w8binp).total_quote_value) :=
  ⟨(c8_hit_rates w8ainp).1 (by decide), (c8_hit_rates w8ainp).2.2.1 (by decide),
   (c8_hit_rates w8binp).2.1 (by decide), (c8_hit_rates w8binp).2.2.2 (by decide)⟩

/-- C10 (implicit): a job present in Submitted whose quote cells are all
non-numeric gets `quote_value = 0` (not null), hence `risk_level = "Low"`
by the `≤ 0` rule, while keeping `has_quote = true` and, absent an order,
`status = "Submitted Only"`. -/
theorem c10_nonnumeric_zero (inp : Input) (j : ℕ) (r : JobRecord)
    (h : r ∈ jobsTable inp) (hjob : r.job_no = j)
    (hin : inTable inp.submitted j = true)
    (hnn : ∀ row ∈ rowsFor inp.submitted j, toNumeric row.value = none)
    (hno : inTable inp.orders j = false) :
    r.quote_value = some 0 ∧ r.risk_level = "Low" ∧ r.has_quote = true ∧
    r.status = "Submitted Only" := by
  obtain ⟨j0, hj0, rfl⟩ := mem_jobsTable h
  have hjj : j0 = j := hjob
  subst hjj
  have hsum : aggSum inp.submitted j0 = 0 := by
    unfold aggSum sumNumeric
    have hmapped : ∀ v ∈ (rowsFor inp.submitted j0).map (fun r => r.value),
        toNumeric v = none := by
      intro v hv
      obtain ⟨row, hrow, rfl⟩ := List.mem_map.mp hv
      exact hnn row hrow
    rw [List.filterMap_eq_nil_iff.mpr hmapped]
    rfl
  have hqv : quoteValueOf inp j0 = some 0 := by
    simp [quoteValueOf, hin, hsum]
  refine ⟨hqv, ?_, hin, ?_⟩
  · show risk_level (q90 inp) (quoteValueOf inp j0) (inTable inp.orders j0) = "Low"
    simp [risk_level, hqv]
  · show derive_status (inTable inp.rfq j0) (inTable inp.submitted j0)
        (inTable inp.orders j0) (inTable inp.todo j0) = "Submitted Only"
    simp [derive_status, hin, hno]

/-- C10 witness: in `w10inp` job 1's only quote cell is the string
`"tbc"`; its record has `quote_value = 0`, Low risk and status
"Submitted Only". -/
theorem c10_nonnumeric_zero_witness :
    w10rec.quote_value = some 0 ∧ w10rec.risk_level = "Low" ∧
    w10rec.has_quote = true ∧ w10rec.status = "Submitted Only" :=
  c10_nonnumeric_zero w10inp 1 w10rec (by decide) (by decide) (by decide)
    (by decide) (by decide)

end MMC
